import Mathlib

/-!
Verification of the automation-framework repository's two core routines:

* `convert_to_array` (src/automation/utils.py, lines 47-102): a generator
  that turns each positional argument into a one-dimensional numpy array,
  dispatching on the argument's runtime type through an `isinstance` chain.

* `Files.arrange_files` (src/files.py, lines 24-72): sorts the entries of a
  directory into extension buckets plus a catch-all folder, by mutating the
  filesystem.

The Python values, numpy dtypes and directory states are embedded as
inductive types; the two routines are translated branch-for-branch into
executable Lean functions over those types.
-/

/-- Numpy dtypes that can appear on arrays produced by `convert_to_array`.
`di64`/`df64` are also the dtypes of Python `int`/`float` scalars (numpy
maps `dtype=int` to int64 and `dtype=float` to float64 on a 64-bit Linux
host, the environment the source targets), and `dbool` covers both Python
`bool` and `np.bool_` (numpy has a single boolean dtype). `ddt64D` is
`datetime64[D]`; `dobj` is the opaque `object` dtype. -/
inductive Dtype where
  | dbool | di8 | di16 | di32 | di64 | df16 | df32 | df64
  | dstr | ddt64D | dobj
deriving DecidableEq, Repr

/-- Widths of the fixed-width numpy integer scalars accepted at
utils.py line 86. -/
inductive NpIntW where
  | i8 | i16 | i32 | i64
deriving DecidableEq, Repr

/-- Widths of the fixed-width numpy float scalars accepted at
utils.py line 89. -/
inductive NpFloatW where
  | f16 | f32 | f64
deriving DecidableEq, Repr

/-- The Python runtime values `convert_to_array` can receive, one
constructor per distinct branch-relevant runtime type.  Float payloads are
carried as an opaque `Int` code (no claim computes with float arithmetic).
`date` carries year/month/day; `datetime` additionally carries a
time-of-day.  `ndarray` is a one-dimensional numpy array (dtype plus
elements); `series`/`index` are pandas objects whose `.values` view is the
carried array.  `set` is a Python `set` (an unordered finite collection —
not a `list`/`tuple`).  `obj` is a custom object of a kind the function
does not recognise. -/
inductive PyVal where
  | none
  | bool (b : Bool)
  | int (n : Int)
  | float (q : Int)
  | str (s : String)
  | date (y m d : Nat)
  | datetime (y m d hh mi ss : Nat)
  | ndarray (dt : Dtype) (data : List PyVal)
  | list (xs : List PyVal)
  | tuple (xs : List PyVal)
  | set (xs : List PyVal)
  | series (dt : Dtype) (data : List PyVal)
  | index (dt : Dtype) (data : List PyVal)
  | npint (w : NpIntW) (n : Int)
  | npfloat (w : NpFloatW) (q : Int)
  | npbool (b : Bool)
  | npdt64 (y m d : Nat)
  | obj (tag : Nat)
deriving Repr

/-- The numpy dtype of `np.array([x], dtype=type(x))` for the scalar
branches of utils.py lines 83-93: the element dtype is the scalar's own
runtime type, so each fixed width is preserved. -/
def dtypeOf : PyVal → Dtype
  | .bool _ => .dbool
  | .npbool _ => .dbool
  | .int _ => .di64
  | .float _ => .df64
  | .str _ => .dstr
  | .npint .i8 _ => .di8
  | .npint .i16 _ => .di16
  | .npint .i32 _ => .di32
  | .npint .i64 _ => .di64
  | .npfloat .f16 _ => .df16
  | .npfloat .f32 _ => .df32
  | .npfloat .f64 _ => .df64
  | _ => .dobj

/-- Coarse model of numpy's dtype inference for `np.array(x)` on a list or
tuple `x` (utils.py line 80): all-integer data infers int64, numeric data
infers float64, all-string data infers a string dtype, anything mixed
infers `object`; `np.array([])` has dtype float64.  The claims under
verification depend only on the element sequence being preserved, not on
the inferred dtype. -/
def inferDtype (xs : List PyVal) : Dtype :=
  if xs.isEmpty then .df64
  else if xs.all (fun v => match v with | .int _ => true | _ => false) then .di64
  else if xs.all (fun v => match v with | .int _ => true | .float _ => true | _ => false) then .df64
  else if xs.all (fun v => match v with | .str _ => true | _ => false) then .dstr
  else .dobj

/-- `np.array(xs)` for a list or tuple `xs`: the elements in iteration
order under the inferred dtype. -/
def npArrayOf (xs : List PyVal) : PyVal :=
  .ndarray (inferDtype xs) xs

/-- One pass of the generator body of `convert_to_array`
(utils.py lines 74-102), i.e. the `isinstance` chain applied to a single
positional argument.  Returns the yielded array together with a flag that
is `true` exactly when the `warnings.warn` fallback at lines 100-102 fired.
The arms are listed in the source's branch order; the constructors are
disjoint, so the match is the chain.  Points where Python subtyping decides
the branch:

* `datetime.datetime` is a subclass of `datetime.date`, so a datetime
  takes the first branch (line 75) and `strftime("%Y-%m-%d")` keeps only
  year-month-day — the resulting `datetime64[D]` element is the bare day.
* `np.bool_`, listed in the line 83 tuple, yields dtype bool there; the
  later `np.bool*` branch (line 92) is unreachable for it.
* A Python `set` matches no branch before the `else`, so it reaches the
  warning fallback and is wrapped whole as the single `object` element.
* `None` yields `np.array([])`, an empty array (numpy gives it the default
  float64 dtype). -/
def convertOne : PyVal → PyVal × Bool
  | .date y m d => (.ndarray .ddt64D [.date y m d], false)
  | .datetime y m d _ _ _ => (.ndarray .ddt64D [.date y m d], false)
  | .ndarray dt data => (.ndarray dt data, false)
  | .list xs => (npArrayOf xs, false)
  | .tuple xs => (npArrayOf xs, false)
  | .series dt data => (.ndarray dt data, false)
  | .index dt data => (.ndarray dt data, false)
  | .int n => (.ndarray .di64 [.int n], false)
  | .float q => (.ndarray .df64 [.float q], false)
  | .str s => (.ndarray .dstr [.str s], false)
  | .bool b => (.ndarray .dbool [.bool b], false)
  | .npint w n => (.ndarray (dtypeOf (.npint w n)) [.npint w n], false)
  | .npfloat w q => (.ndarray (dtypeOf (.npfloat w q)) [.npfloat w q], false)
  | .npbool b => (.ndarray .dbool [.npbool b], false)
  | .npdt64 y m d => (.ndarray .ddt64D [.date y m d], false)
  | .none => (.ndarray .df64 [], false)
  | .set xs => (.ndarray .dobj [.set xs], true)
  | .obj t => (.ndarray .dobj [.obj t], true)

/-- `convert_to_array(*args)`: the generator yields `convertOne` of each
positional argument, in argument order (utils.py line 74).  The lazy
sequence is embedded as the finite list of its yields. -/
def convert_to_array (args : List PyVal) : List (PyVal × Bool) :=
  args.map convertOne

/-- Recognised scalar kinds: the inputs taken by the scalar branches of
utils.py lines 83-93 (Python bool/int/float/str, numpy fixed-width
ints and floats, numpy bool). -/
def isRecognizedScalar : PyVal → Bool
  | .bool _ => true
  | .int _ => true
  | .float _ => true
  | .str _ => true
  | .npint _ _ => true
  | .npfloat _ _ => true
  | .npbool _ => true
  | _ => false

/-- Kinds for which some branch before the final `else` of utils.py
line 99 fires; exactly the complement of the warning fallback. -/
def isConfiguredKind : PyVal → Bool
  | .set _ => false
  | .obj _ => false
  | _ => true

/-- A directory entry of the folder being arranged: a plain file (with a
numeric identity so that moves can be tracked) or a subdirectory with its
own entries.  `arrange_files` only ever touches the top level of the
target folder and the children of its immediate subdirectories. -/
inductive Entry where
  | file (name : String) (id : Nat)
  | dir (name : String) (children : List Entry)
deriving Repr

/-- The name of an entry. -/
def Entry.name : Entry → String
  | .file n _ => n
  | .dir n _ => n

/-- Whether the entry is a directory. -/
def Entry.isDirectory : Entry → Bool
  | .file _ _ => false
  | .dir _ _ => true

/-- An entry with its name replaced (`os.rename` inside one folder). -/
def Entry.renamed : Entry → String → Entry
  | .file _ i, n => .file n i
  | .dir _ cs, n => .dir n cs

/-- The contents of the folder being arranged.  `os.listdir` order is
modelled as list order; newly created or renamed entries are appended at
the end. -/
abbrev Listing := List Entry

/-- Look up the entry with the given name. -/
def findE (d : Listing) (n : String) : Option Entry :=
  d.find? (fun e => e.name == n)

/-- Remove the entry with the given name. -/
def removeE (d : Listing) (n : String) : Listing :=
  d.filter (fun e => e.name != n)

/-- Replace the children of the top-level subdirectory named `n`. -/
def setChildren (d : Listing) (n : String) (cs : List Entry) : Listing :=
  d.map (fun e => if e.name == n && e.isDirectory then .dir n cs else e)

/-- The errors `arrange_files` can propagate: the re-raised
`FileExistsError` of files.py lines 38-40, or a failing
`shutil.move`/`os.rename` (missing source, name collision inside the
destination folder, or renaming a directory onto an existing file). -/
inductive FsErr where
  | alreadyExists (n : String)
  | moveError
deriving DecidableEq, Repr

/-- `os.makedirs(os.path.join(folder, n))`: error if an entry named `n`
already exists (file or directory), otherwise create an empty
subdirectory. -/
def makedirs (d : Listing) (n : String) : Except FsErr Listing :=
  match findE d n with
  | some _ => .error (.alreadyExists n)
  | Option.none => .ok (d ++ [.dir n []])

/-- `shutil.move(os.path.join(folder, src), os.path.join(folder, dst))`
restricted to one folder, following shutil's Python source on a POSIX
host:

* destination is an existing directory: if it is the source itself
  (`_samefile`), `os.rename` onto itself is a no-op; otherwise the real
  destination is `dst/src`, which raises `shutil.Error` if occupied and
  otherwise receives the moved entry;
* destination is an existing file: `os.rename` silently replaces it when
  the source is a file, and fails (ENOTDIR) when the source is a
  directory;
* destination absent: `os.rename` renames the source to `dst`;
* missing source: `FileNotFoundError`. -/
def moveEntry (d : Listing) (src dst : String) : Except FsErr Listing :=
  match findE d src with
  | Option.none => .error .moveError
  | some e =>
    match findE d dst with
    | some (.dir dn children) =>
      if src == dst then .ok d
      else if (children.find? (fun c => c.name == src)).isSome then .error .moveError
      else .ok (setChildren (removeE d src) dn (children ++ [e]))
    | some (.file _ _) =>
      if src == dst then .ok d
      else if e.isDirectory then .error .moveError
      else .ok (removeE (removeE d dst) src ++ [e.renamed dst])
    | Option.none => .ok (removeE d src ++ [e.renamed dst])

/-- Python `x[-4:]`: the last four characters of the name, or the whole
name when it is shorter (files.py line 43). -/
def last4 (s : String) : String :=
  if s.length ≤ 4 then s else s.drop (s.length - 4)

/-- `re.search("^[.]", y)` (files.py line 44): the name starts with a
dot. -/
def startsWithDot (s : String) : Bool :=
  match s.data with
  | '.' :: _ => true
  | _ => false

/-- Python `str.isalpha`: nonempty and all characters alphabetic
(files.py line 47). -/
def isAlphaStr (s : String) : Bool :=
  s.data != [] && s.data.all Char.isAlpha

/-- The loop of files.py lines 46-51 transcribed with Python's exact
for-loop semantics: the loop keeps an index `i` that advances every
iteration even when `lst.remove(ext)` shrinks the list in place, so the
element after a removed one is skipped.  `remove` deletes the first
occurrence of the value (`List.erase`).  `fuel` bounds the iteration count
(the index grows each step while the list never grows, so the initial
length suffices). -/
def removeNonAlphaLoop : Nat → List String → Nat → List String
  | 0, l, _ => l
  | fuel + 1, l, i =>
    match l[i]? with
    | Option.none => l
    | some ext =>
      if isAlphaStr (ext.drop 1) then removeNonAlphaLoop fuel l (i + 1)
      else removeNonAlphaLoop fuel (l.erase ext) (i + 1)

/-- `list(set(lst))` (files.py line 54): duplicates dropped.  Python's set
iteration order is hash-dependent; it is modelled as first-occurrence
order.  No behaviour under verification depends on the order, only on the
underlying set: each file name's 4-character tail equals at most one
token. -/
def dedupFirst (l : List String) : List String :=
  l.foldl (fun acc s => if acc.contains s then acc else acc ++ [s]) []

/-- `Files.arrange_files(misc_folder_name)` (files.py lines 24-72) over the
contents `d` of `self.folder_directory`:

1. lines 36-40: `os.makedirs` of the misc folder, re-raising
   `FileExistsError`;
2. lines 42-44: list the folder (the just-created misc folder included),
   take each name's last four characters, keep those starting with a dot;
3. lines 46-51: drop tokens whose tail is not alphabetic — with the
   remove-inside-the-loop semantics of `removeNonAlphaLoop`;
4. line 54: deduplicate;
5. lines 56-60: `os.makedirs` per token — the token still carries its
   leading dot — tolerating `FileExistsError`;
6. lines 62-65: move every listed entry whose last four characters equal a
   token into the entry of that token's name;
7. lines 67-72: re-list the folder and move every entry whose name is not
   itself a token into the literal folder name `"others"` — the
   `misc_folder_name` parameter is not used here. -/
def arrange_files (misc_folder_name : String) (d : Listing) : Except FsErr Listing := do
  let d1 ← makedirs d misc_folder_name
  let lst_files := d1.map Entry.name
  let lst_file_end := lst_files.map last4
  let lst_file_ext0 := lst_file_end.filter (fun y => startsWithDot y)
  let lst_file_ext1 := removeNonAlphaLoop lst_file_ext0.length lst_file_ext0 0
  let lst_file_ext := dedupFirst lst_file_ext1
  let d2 := lst_file_ext.foldl
    (fun acc folder =>
      match findE acc folder with
      | some _ => acc
      | Option.none => acc ++ [.dir folder []]) d1
  let d3 ← lst_files.foldlM
    (fun acc file =>
      lst_file_ext.foldlM
        (fun acc2 file_ext =>
          if last4 file == file_ext then moveEntry acc2 file file_ext
          else pure acc2) acc) d2
  let lst_all_files := d3.map Entry.name
  let lst_misc_files := lst_all_files.filter (fun x => !(lst_file_ext.contains x))
  let d4 ← lst_misc_files.foldlM (fun acc m => moveEntry acc m "others") d3
  return d4

/-- C1: convert_to_array yields exactly one output array per positional
input, in argument order, for every finite argument list of any mixture
of kinds (null and unrecognised kinds included): the output has the same
length as the argument list and its i-th yield is the conversion of the
i-th argument. -/
theorem convert_to_array_one_per_argument (args : List PyVal) :
    (convert_to_array args).length = args.length ∧
      ∀ i : Nat, (convert_to_array args)[i]? = (args[i]?).map convertOne := by
  refine ⟨List.length_map _ _, fun i => ?_⟩
  simp [convert_to_array]

/-- C6: every recognised scalar input (bool, int, float, str, fixed-width
numpy int/float, numpy bool) yields a single array of length 1 whose
element dtype is the scalar's own exact runtime type, width preserved,
with no warning; and the dtype of an 8-bit integer scalar differs from
that of a generic Python integer (no widening). -/
theorem convert_to_array_scalar_exact_dtype :
    (∀ x : PyVal, isRecognizedScalar x = true →
        convertOne x = (.ndarray (dtypeOf x) [x], false)) ∧
      dtypeOf (.npint .i8 0) ≠ dtypeOf (.int 0) := by
  constructor
  · intro x hx
    cases x <;> simp_all [isRecognizedScalar, convertOne, dtypeOf]
  · decide

/-- Witness for C6 at the concrete 8-bit integer scalar 7. -/
theorem convert_to_array_scalar_exact_dtype_w :
    isRecognizedScalar (.npint .i8 7) = true ∧
      convertOne (.npint .i8 7) =
        (.ndarray (dtypeOf (.npint .i8 7)) [.npint .i8 7], false) :=
  ⟨rfl, convert_to_array_scalar_exact_dtype.1 (.npint .i8 7) rfl⟩

/-- C7 counterexample: a Python set is a finite non-string sequence
(unordered), yet convert_to_array sends it to the opaque fallback: the
yield for the set of 1, 2, 3 is a single-element object-dtype array
holding the set itself, with the warning flag raised — not the warned-free
array of its three elements. -/
theorem convert_to_array_set_hits_fallback_cex :
    convertOne (.set [.int 1, .int 2, .int 3]) =
      (.ndarray .dobj [.set [.int 1, .int 2, .int 3]], true) ∧
    convert_to_array [.set [.int 1, .int 2, .int 3]] ≠
      [(.ndarray .dobj [.int 1, .int 2, .int 3], false)] := by
  refine ⟨rfl, ?_⟩
  simp [convert_to_array, convertOne]

/-- C7 amended: for every list or tuple input (the ordered finite
sequences the source recognises), convert_to_array emits an array built
from the elements in iteration order with no fallback warning; an existing
one-dimensional array input is emitted unchanged; and normalize([1,2,3])
yields the array [1,2,3] in order.  An unordered set is not covered: it
falls to the opaque fallback. -/
theorem convert_to_array_ordered_sequences :
    (∀ xs : List PyVal, convertOne (.list xs) = (npArrayOf xs, false)) ∧
    (∀ xs : List PyVal, convertOne (.tuple xs) = (npArrayOf xs, false)) ∧
    (∀ (dt : Dtype) (data : List PyVal),
        convertOne (.ndarray dt data) = (.ndarray dt data, false)) ∧
    convert_to_array [.list [.int 1, .int 2, .int 3]] =
      [(.ndarray .di64 [.int 1, .int 2, .int 3], false)] :=
  ⟨fun _ => rfl, fun _ => rfl, fun _ _ => rfl, rfl⟩

/-- C8: a calendar-date input yields a single-element day-granularity
datetime64[D] array holding exactly the year-month-day value — no time
component and no warning; the generic scalar branches are not reached
(the date branch is the first of the chain). -/
theorem convert_to_array_date_day_granularity (y m d : Nat) :
    convertOne (.date y m d) = (.ndarray .ddt64D [.date y m d], false) := rfl

/-- C9: convert_to_array never raises — it is total on the value model:
None yields the empty array; every unrecognised kind yields a
single-element object-dtype array holding the value verbatim, flagged
with the non-fatal warning; and processing of the remaining arguments
continues — the yields of a sequence split around any argument are the
yields of the parts. -/
theorem convert_to_array_never_raises :
    convertOne PyVal.none = (.ndarray .df64 [], false) ∧
    (∀ x : PyVal, isConfiguredKind x = false →
        convertOne x = (.ndarray .dobj [x], true)) ∧
    (∀ (pre post : List PyVal) (x : PyVal),
        convert_to_array (pre ++ x :: post) =
          convert_to_array pre ++ convertOne x :: convert_to_array post) := by
  refine ⟨rfl, ?_, ?_⟩
  · intro x hx
    cases x <;> simp_all [isConfiguredKind, convertOne]
  · intro pre post x
    simp [convert_to_array]

/-- Witness for C9 at a concrete unrecognised custom object. -/
theorem convert_to_array_never_raises_w :
    isConfiguredKind (PyVal.obj 0) = false ∧
      convertOne (PyVal.obj 0) = (.ndarray .dobj [.obj 0], true) :=
  ⟨rfl, convert_to_array_never_raises.2.1 (PyVal.obj 0) rfl⟩

/-- C10: a datetime input (datetime.datetime is a subclass of
datetime.date) takes the calendar-date branch: the yield is the length-1
day-granularity date array with the time-of-day silently discarded and no
warning — neither a scalar result nor the unrecognised-kind fallback. -/
theorem convert_to_array_datetime_truncated (y m d hh mi ss : Nat) :
    convertOne (.datetime y m d hh mi ss) =
        (.ndarray .ddt64D [.date y m d], false) ∧
      isConfiguredKind (.datetime y m d hh mi ss) = true :=
  ⟨rfl, rfl⟩

/-- C3 counterexample: classifying a directory holding the single file
a.txt (default catch-all name) creates the bucket directory named ".txt" —
the leading dot is not stripped — and no entry named "txt" exists anywhere
in the result. -/
theorem arrange_files_dot_not_stripped_cex :
    arrange_files "others" [Entry.file "a.txt" 0] =
      .ok [Entry.dir "others" [], Entry.dir ".txt" [Entry.file "a.txt" 0]] ∧
    ([Entry.dir "others" [], Entry.dir ".txt" [Entry.file "a.txt" 0]].all
        (fun e => e.name != "txt")) = true :=
  ⟨rfl, rfl⟩

/-- C3 amended: each distinct valid extension token found in the directory
gets its bucket created as a subdirectory named by the token with its
leading dot kept: for files a.txt, b.txt, c.csv (and readme), bucket
".txt" holds a.txt and b.txt, bucket ".csv" holds c.csv, and readme lands
in others; a pre-existing bucket of the token's name is tolerated without
failing. -/
theorem arrange_files_bucket_named_with_dot :
    arrange_files "others"
        [Entry.file "a.txt" 0, Entry.file "b.txt" 1, Entry.file "c.csv" 2,
          Entry.file "readme" 3] =
      .ok [Entry.dir "others" [Entry.file "readme" 3],
        Entry.dir ".txt" [Entry.file "a.txt" 0, Entry.file "b.txt" 1],
        Entry.dir ".csv" [Entry.file "c.csv" 2]] ∧
    arrange_files "others" [Entry.dir ".txt" [], Entry.file "a.txt" 0] =
      .ok [Entry.dir ".txt" [Entry.file "a.txt" 0], Entry.dir "others" []] :=
  ⟨rfl, rfl⟩

/-- C2 evaluated at the failing input: with caller-supplied catch-all name
"x" and one extensionless file doc, the run never puts doc into x/ — the
final step moves leftovers toward the hard-coded name "others" (files.py
line 72), renaming doc to a top-level file "others" and then failing to
move the directory x onto that file, so the operation errors with the
directory left mid-restructure. -/
theorem arrange_files_hardcoded_others_failure :
    arrange_files "x" [Entry.file "doc" 0] = .error .moveError := rfl

/-- C4 evaluated at the failing input: with catch-all name "x" on an empty
directory, the first run renames the just-created catch-all x to "others"
(hard-coded in the final step), so a second run with the same name "x"
succeeds instead of raising — it creates x again and nests it under
others/.  The third conjunct shows the existence guard itself does fire
when the named catch-all is still present. -/
theorem arrange_files_second_run_no_raise :
    arrange_files "x" ([] : Listing) = .ok [Entry.dir "others" []] ∧
    arrange_files "x" [Entry.dir "others" []] =
      .ok [Entry.dir "others" [Entry.dir "x" []]] ∧
    arrange_files "others"
        [Entry.dir "others" [Entry.file "readme" 3], Entry.dir ".txt" []] =
      .error (.alreadyExists "others") :=
  ⟨rfl, rfl, rfl⟩

/-- C5 evaluated at the failing input: the files x.123 and y.123 share the
non-alphabetic 4-character suffix ".123"; the removal loop of files.py
lines 46-51 deletes the first copy of the token and skips the second (the
loop index keeps advancing over the list it is shrinking), so the
surviving token creates the extension bucket ".123" and both files are
moved into it.  A single such file, by contrast, creates no bucket. -/
theorem arrange_files_bad_suffix_bucket :
    arrange_files "others" [Entry.file "x.123" 0, Entry.file "y.123" 1] =
      .ok [Entry.dir "others" [],
        Entry.dir ".123" [Entry.file "x.123" 0, Entry.file "y.123" 1]] ∧
    arrange_files "others" [Entry.file "x.123" 0] =
      .ok [Entry.dir "others" [Entry.file "x.123" 0]] :=
  ⟨rfl, rfl⟩
